import Mathlib

set_option linter.unusedVariables false

/-! Shallow embedding of the Aptos transaction execution adapter
    (src/aptos-move/aptos-vm/src/aptos_vm.rs).  External collaborators
    (bytecode VM sessions, prologue and epilogue entry points, storage reads,
    cryptography) are modelled as oracle parameters, matching the spec, which
    treats them as black boxes.  Definitions whose Rust source is not under
    src/ carry a doc comment starting with the words Modelled from the spec. -/

namespace AptosVM

/-- Account addresses, modelled as natural numbers. -/
abbrev AccountAddress := Nat

/-- State keys of a write set, modelled as natural numbers. -/
abbrev StateKey := Nat

/-- Opaque write operation payloads. -/
abbrev WriteOp := Nat

/-- Module names (identifiers), modelled as natural numbers. -/
abbrev Identifier := Nat

/-- Serialized module blobs, modelled opaquely. -/
abbrev ModuleBlob := Nat

/-- A module bundle is the list of its serialized modules. -/
abbrev ModuleBundle := List ModuleBlob

/-- Event keys: a creation number plus an account address, following
    EventKey.new in types/src/account_config/events/new_block.rs. -/
structure EventKey where
  creationNumber : Nat
  address : AccountAddress
deriving DecidableEq, Repr

/-- The reserved core code address 0x1 (CORE_CODE_ADDRESS). -/
def coreCodeAddress : AccountAddress := 1

/-- The new block event key, EventKey.new 2 CORE_CODE_ADDRESS, from
    new_block_event_key in types/src/account_config/events/new_block.rs. -/
def new_block_event_key : EventKey := ⟨2, coreCodeAddress⟩

/-- Modelled from the spec: new_epoch_event_key (aptos_types on_chain_config,
    not under src/) is the reconfiguration event marker, an event handle of the
    core account distinct from the new block event handle. -/
def new_epoch_event_key : EventKey := ⟨0, coreCodeAddress⟩

/-- A contract event: key, sequence number and an opaque payload. -/
structure ContractEvent where
  key : EventKey
  sequenceNumber : Nat
  payload : Nat
deriving DecidableEq, Repr

/-- A write set: an ordered list of key and write op pairs. -/
abbrev WriteSet := List (StateKey × WriteOp)

/-- A change set: a write set plus the ordered list of emitted events. -/
structure ChangeSet where
  writeSet : WriteSet
  events : List ContractEvent
deriving DecidableEq, Repr

/-- The state keys of a write set, in order. -/
def writeSetKeys (ws : WriteSet) : List StateKey := ws.map Prod.fst

/-- The event keys of an event list, in order. -/
def eventKeysOf (es : List ContractEvent) : List EventKey := es.map ContractEvent.key

/-- Boolean disjointness of two key lists, as computed by the HashSet
    is_disjoint calls in execute_writeset_transaction. -/
def keysDisjoint {α : Type} [DecidableEq α] (xs ys : List α) : Bool :=
  xs.all fun x => decide (x ∉ ys)

/-- The status codes named in aptos_vm.rs, plus an opaque remainder of the
    closed taxonomy. -/
inductive StatusCode where
  | UNREACHABLE
  | INVALID_WRITE_SET
  | INVALID_SIGNATURE
  | SIGNERS_CONTAIN_DUPLICATES
  | UNKNOWN_INVARIANT_VIOLATION_ERROR
  | DUPLICATE_MODULE_NAME
  | CODE_DESERIALIZATION_ERROR
  | VERIFICATION_ERROR
  | STORAGE_ERROR
  | OUT_OF_GAS
  | EXECUTION_FAILURE
  | ABORTED
  | other (n : Nat)
deriving DecidableEq, Repr

/-- VM statuses: successful execution, an error with a status code, or a user
    abort raised by executed code. -/
inductive VMStatus where
  | executed
  | error (code : StatusCode)
  | moveAbort (code : Nat)
deriving DecidableEq, Repr

/-- The status code carried by a VM status (status_code in the vm_status
    taxonomy; EXECUTED is code 0, modelled as other 0). -/
def VMStatus.statusCode : VMStatus → StatusCode
  | .executed => .other 0
  | .error c => c
  | .moveAbort _ => .ABORTED

/-- Execution statuses recorded inside a kept transaction. -/
inductive ExecutionStatus where
  | success
  | outOfGas
  | moveAbort (code : Nat)
  | miscellaneousError (code : StatusCode)
deriving DecidableEq, Repr

/-- Transaction statuses: keep in the ledger, discard, or retry. -/
inductive TransactionStatus where
  | keep (s : ExecutionStatus)
  | discard (code : StatusCode)
  | retry
deriving DecidableEq, Repr

/-- Modelled from the spec: the deterministic, total classification of a VM
    status into Keep versus Discard (TransactionStatus::from over
    keep_or_discard; the vm_status source is not under src/).  Execution
    errors such as out of gas and user aborts are kept; validation,
    verification and invariant violation codes are discarded. -/
def TransactionStatus.fromVMStatus : VMStatus → TransactionStatus
  | .executed => .keep .success
  | .moveAbort code => .keep (.moveAbort code)
  | .error .OUT_OF_GAS => .keep .outOfGas
  | .error .EXECUTION_FAILURE => .keep (.miscellaneousError .EXECUTION_FAILURE)
  | .error c => .discard c

/-- Whether a transaction status is Discard (is_discarded). -/
def TransactionStatus.isDiscarded : TransactionStatus → Bool
  | .discard _ => true
  | _ => false

/-- The externally visible result of one transaction attempt. -/
structure TransactionOutput where
  writeSet : WriteSet
  events : List ContractEvent
  gasUsed : Nat
  status : TransactionStatus
deriving DecidableEq, Repr

/-- Modelled from the spec: discard_error_output (adapter_common.rs, not under
    src/) builds the Discard output: empty write set, no events, zero gas. -/
def discard_error_output (code : StatusCode) : TransactionOutput :=
  ⟨[], [], 0, .discard code⟩

/-- Modelled from the spec: discard_error_vm_status (adapter_common.rs, not
    under src/) pairs the original VM status with the Discard output carrying
    its status code. -/
def discard_error_vm_status (err : VMStatus) : VMStatus × TransactionOutput :=
  (err, discard_error_output err.statusCode)

/-- Metadata of a transaction, projected once per attempt. -/
structure TransactionMetadata where
  sender : AccountAddress
  secondarySigners : List AccountAddress
  maxGasAmount : Nat
  transactionSize : Nat
deriving DecidableEq, Repr

/-- Modelled from the spec: the gas meter (aptos-gas crate, not under src/)
    owns a monotonically decreasing balance bounded by max_gas_amount; a charge
    that exceeds the balance zeroes the balance and reports out of gas. -/
structure AptosGasMeter where
  maxGasAmount : Nat
  balance : Nat
deriving DecidableEq, Repr

/-- A fresh gas meter holds the full budget. -/
def AptosGasMeter.new (maxGas : Nat) : AptosGasMeter := ⟨maxGas, maxGas⟩

/-- Modelled from the spec: charging the meter; on overdraft the balance is
    zeroed and an out of gas error is reported together with the meter. -/
def AptosGasMeter.charge (m : AptosGasMeter) (amount : Nat) :
    Except (AptosGasMeter × StatusCode) AptosGasMeter :=
  if amount ≤ m.balance then
    .ok ⟨m.maxGasAmount, m.balance - amount⟩
  else
    .error (⟨m.maxGasAmount, 0⟩, .OUT_OF_GAS)

/-- The meter obtained after issuing a list of charges; execution stops at the
    first failing charge, whose zeroed meter is kept. -/
def AptosGasMeter.chargeAll (m : AptosGasMeter) : List Nat → AptosGasMeter
  | [] => m
  | a :: rest =>
    match m.charge a with
    | .ok m2 => m2.chargeAll rest
    | .error (m2, _) => m2

/-- The gas usage computed at line 518 of aptos_vm.rs:
    max_gas_amount minus the meter balance. -/
def gas_usage (txn_data : TransactionMetadata) (m : AptosGasMeter) : Nat :=
  txn_data.maxGasAmount - m.balance

/-- Modelled from the spec: WriteSetMut.freeze (aptos types write_set, not
    under src/) freezes a write set; a frozen set is keyed uniquely, with no
    duplicate keys permitted. -/
def WriteSetMut.freeze (ws : WriteSet) : Option WriteSet :=
  if (writeSetKeys ws).Nodup then some ws else none

/-- The direct or scripted payload of a system write set transaction. -/
inductive WriteSetPayload where
  | direct (cs : ChangeSet)
  | script (executeAs : AccountAddress) (code : Nat)
deriving DecidableEq, Repr

/-- Oracle for the black box steps of the system write set pipeline: the
    scripted payload execution inside a temporary session, the writeset
    epilogue session, and storage reads.  getStateValue returns none on a
    storage error and some v on a successful read. -/
structure WritesetOracle where
  scriptLoadArgs : Except VMStatus Unit
  scriptExec : Except VMStatus Unit
  scriptChangeSet : Except VMStatus ChangeSet
  epilogueRun : Except VMStatus Unit
  epilogueOut : Except VMStatus ChangeSet
  getStateValue : StateKey → Option (Option WriteOp)

/-- The return type of execute_writeset_transaction and of
    process_waypoint_change_set. -/
abbrev WsPipelineResult := Except VMStatus (VMStatus × TransactionOutput)

/-- execute_writeset (aptos_vm.rs lines 540 to 587): a Direct payload yields
    its change set; a scripted payload runs the script in a temporary session
    under an unmetered gas meter.  Load and argument validation failures
    propagate as fatal statuses; execution or finish failures yield a Discard
    output with an invalid write set code. -/
def execute_writeset (o : WritesetOracle) (writeset_payload : WriteSetPayload)
    (txn_sender : Option AccountAddress) : Except WsPipelineResult ChangeSet :=
  match writeset_payload with
  | .direct change_set => .ok change_set
  | .script _ _ =>
    match o.scriptLoadArgs with
    | .error e => .error (.error e)
    | .ok () =>
      match o.scriptExec with
      | .error e => .error (.ok (e, discard_error_output .INVALID_WRITE_SET))
      | .ok () =>
        match o.scriptChangeSet with
        | .error e => .error (.error e)
        | .ok cs => .ok cs

/-- read_writeset (aptos_vm.rs lines 589 to 602): reads every key the write
    set is going to update; a failed read yields a storage error. -/
def read_writeset (getStateValue : StateKey → Option (Option WriteOp))
    (write_set : WriteSet) : Except VMStatus Unit :=
  if write_set.all fun kv => (getStateValue kv.1).isSome then .ok ()
  else .error (.error .STORAGE_ERROR)

/-- Whether the events contain the new block marker
    (validate_waypoint_change_set, lines 608 to 611). -/
def hasNewBlockEvent (es : List ContractEvent) : Bool :=
  es.any fun e => decide (e.key = new_block_event_key)

/-- Whether the events contain the new epoch marker
    (validate_waypoint_change_set, lines 612 to 615). -/
def hasNewEpochEvent (es : List ContractEvent) : Bool :=
  es.any fun e => decide (e.key = new_epoch_event_key)

/-- validate_waypoint_change_set (aptos_vm.rs lines 604 to 625): a waypoint
    change set must emit both a new block and a new epoch event. -/
def validate_waypoint_change_set (change_set : ChangeSet) : Except VMStatus Unit :=
  if hasNewBlockEvent change_set.events && hasNewEpochEvent change_set.events then
    .ok ()
  else
    .error (.error .INVALID_WRITE_SET)

/-- process_waypoint_change_set (aptos_vm.rs lines 627 to 657): derive the
    change set, validate the waypoint markers, read the touched keys, and wrap
    the change set as an executed output with zero gas. -/
def process_waypoint_change_set (o : WritesetOracle)
    (writeset_payload : WriteSetPayload) : WsPipelineResult :=
  match execute_writeset o writeset_payload none with
  | .error e => e
  | .ok change_set =>
    match validate_waypoint_change_set change_set with
    | .error e => .error e
    | .ok () =>
      match read_writeset o.getStateValue change_set.writeSet with
      | .error e => .error e
      | .ok () =>
        .ok (.executed,
          ⟨change_set.writeSet, change_set.events, 0, .keep .success⟩)

/-- execute_writeset_transaction (aptos_vm.rs lines 743 to 836): derive the
    payload change set, run the writeset epilogue in its own session, read the
    touched keys, finish the epilogue session, check that the two change sets
    are disjoint in state keys and in event keys, and merge them into one
    output.  The merged write set chains the epilogue writes in front of the
    payload writes; the merged events chain the payload events in front of the
    epilogue events. -/
def execute_writeset_transaction (o : WritesetOracle)
    (writeset_payload : WriteSetPayload) (txn_data : TransactionMetadata) :
    WsPipelineResult :=
  match execute_writeset o writeset_payload (some txn_data.sender) with
  | .error e => e
  | .ok change_set =>
    match o.epilogueRun with
    | .error e => .error e
    | .ok () =>
      match read_writeset o.getStateValue change_set.writeSet with
      | .error e => .ok (e, discard_error_output .INVALID_WRITE_SET)
      | .ok () =>
        match o.epilogueOut with
        | .error e => .error e
        | .ok epilogue_change_set =>
          let epilogue_writeset := epilogue_change_set.writeSet
          let epilogue_events := epilogue_change_set.events
          if keysDisjoint (writeSetKeys epilogue_writeset)
              (writeSetKeys change_set.writeSet) then
            if keysDisjoint (eventKeysOf epilogue_events)
                (eventKeysOf change_set.events) then
              match WriteSetMut.freeze (epilogue_writeset ++ change_set.writeSet) with
              | none => .error (.error .INVALID_WRITE_SET)
              | some write_set =>
                .ok (.executed,
                  ⟨write_set, change_set.events ++ epilogue_events, 0,
                    .keep .success⟩)
            else
              .ok (discard_error_vm_status (.error .INVALID_WRITE_SET))
          else
            .ok (discard_error_vm_status (.error .INVALID_WRITE_SET))

/-- A deserialized module, reduced to the fields aptos_vm.rs inspects: the
    self id (address and name), whether the session loader finds an
    init_module function on it, and whether that function passes
    verify_module_init_function. -/
structure CompiledModule where
  address : AccountAddress
  name : Identifier
  hasInitFunction : Bool
  initFunctionWellFormed : Bool
deriving DecidableEq, Repr

/-- A pending publish request registered through the native code context. -/
structure PublishRequest where
  destination : AccountAddress
  bundle : ModuleBundle
  expectedModules : List Identifier
  check_compat : Bool
deriving DecidableEq, Repr

/-- A session: the accumulator of buffered writes, emitted events and the at
    most one pending publish request of one execution attempt. -/
structure Session where
  writes : WriteSet
  events : List ContractEvent
  publishRequest : Option PublishRequest
deriving DecidableEq, Repr

/-- A freshly opened session over the resolver buffers nothing. -/
def Session.empty : Session := ⟨[], [], none⟩

/-- Signed transaction, reduced to the fields the adapter inspects.  The
    payload dispatch kinds of aptos_vm.rs. -/
inductive TransactionPayload where
  | script (code : Nat)
  | scriptFunction (code : Nat)
  | moduleBundle (m : ModuleBundle)
  | writeSet (w : WriteSetPayload)
deriving DecidableEq, Repr

/-- A signature checked transaction, as consumed by
    execute_user_transaction. -/
structure SignatureCheckedTransaction where
  sender : AccountAddress
  secondarySigners : List AccountAddress
  maxGasAmount : Nat
  transactionSize : Nat
  payload : TransactionPayload
deriving DecidableEq, Repr

/-- A signed transaction as consumed by simulate_signed_transaction; the
    cryptographic signature check is a black box collaborator, so its verdict
    is carried as a field. -/
structure SignedTransaction where
  sender : AccountAddress
  secondarySigners : List AccountAddress
  maxGasAmount : Nat
  transactionSize : Nat
  payload : TransactionPayload
  signatureValid : Bool
deriving DecidableEq, Repr

/-- TransactionMetadata::new over a signature checked transaction. -/
def TransactionMetadata.new (txn : SignatureCheckedTransaction) :
    TransactionMetadata :=
  ⟨txn.sender, txn.secondarySigners, txn.maxGasAmount, txn.transactionSize⟩

/-- TransactionMetadata::new over a signed transaction (simulation path). -/
def TransactionMetadata.ofSigned (txn : SignedTransaction) :
    TransactionMetadata :=
  ⟨txn.sender, txn.secondarySigners, txn.maxGasAmount, txn.transactionSize⟩

/-- Oracle for the black box collaborators of the user transaction pipeline:
    transaction validation, gas parameter fetch, the gas schedule intrinsic
    cost, script and entry function execution inside the session, module
    deserialization and lookup, bundle publication, init_module execution, and
    the epilogue entry points.  The failure epilogue runs in a brand new
    session over the pre transaction resolver, so it receives only the meter
    balance and the metadata, never the failed session. -/
structure UserOracle where
  validate : Except VMStatus Unit
  getGasParams : Except VMStatus Unit
  intrinsicGasCost : Nat → Nat
  execPayload : Session → TransactionPayload → AptosGasMeter →
    AptosGasMeter × Except VMStatus Session
  deserializeModule : ModuleBlob → Except StatusCode CompiledModule
  moduleExists : AccountAddress → Identifier → Bool
  publishBundle : Session → ModuleBundle → AccountAddress → AptosGasMeter →
    AptosGasMeter × Except VMStatus Session
  publishBundleRelax : Session → ModuleBundle → AccountAddress → AptosGasMeter →
    AptosGasMeter × Except VMStatus Session
  execInit : Session → CompiledModule → List AccountAddress → AptosGasMeter →
    AptosGasMeter × Except VMStatus Session
  successEpilogue : Session → Nat → TransactionMetadata →
    Except VMStatus Session
  failureEpilogue : Nat → TransactionMetadata → Except VMStatus Session
  checkGas : Except VMStatus Unit
  scriptPrologue : Except VMStatus Unit
  modulePrologue : Except VMStatus Unit
  writesetPrologue : Except VMStatus Unit

/-- get_transaction_output (aptos_vm_impl.rs, not under src/).  Modelled from
    the spec: converts a finished session into an output whose gas used is
    max_gas_amount minus the meter balance, with a Keep status. -/
def get_transaction_output (session : Session) (balance : Nat)
    (txn_data : TransactionMetadata) (status : ExecutionStatus) :
    TransactionOutput :=
  ⟨session.writes, session.events, txn_data.maxGasAmount - balance,
    .keep status⟩

/-- failed_transaction_cleanup_and_keep_vm_status (aptos_vm.rs lines 160 to
    195): for a Keep classified error, open a brand new session over the pre
    transaction resolver and run only the failure epilogue with the current
    meter balance; if the failure epilogue itself fails, discard.  For a
    Discard classified error, discard directly.  The Retry arm is unreachable
    in the source (the classification never produces it). -/
def failed_transaction_cleanup_and_keep_vm_status (o : UserOracle)
    (error_code : VMStatus) (gas_meter : AptosGasMeter)
    (txn_data : TransactionMetadata) : VMStatus × TransactionOutput :=
  match TransactionStatus.fromVMStatus error_code with
  | .keep status =>
    match o.failureEpilogue gas_meter.balance txn_data with
    | .error e => discard_error_vm_status e
    | .ok session =>
      (error_code, get_transaction_output session gas_meter.balance txn_data status)
  | .discard status => (VMStatus.error status, discard_error_output status)
  | .retry => (error_code, discard_error_output (.other 0))

/-- success_transaction_cleanup (aptos_vm.rs lines 197 to 217): run the
    success epilogue in the same session, then convert it into an executed
    output. -/
def success_transaction_cleanup (o : UserOracle) (session : Session)
    (gas_meter : AptosGasMeter) (txn_data : TransactionMetadata) :
    Except VMStatus (VMStatus × TransactionOutput) :=
  match o.successEpilogue session gas_meter.balance txn_data with
  | .error e => .error e
  | .ok session2 =>
    .ok (.executed,
      get_transaction_output session2 gas_meter.balance txn_data .success)

/-- validate_publish_request (aptos_vm.rs lines 451 to 467): the set of module
    names in the deserialized bundle must equal the claimed set exactly. -/
def validate_publish_request (modules : List CompiledModule)
    (expected_names : List Identifier) : Except VMStatus Unit :=
  let given_names := modules.map CompiledModule.name
  if (given_names.all fun x => decide (x ∈ expected_names)) &&
      (expected_names.all fun y => decide (y ∈ given_names)) then
    .ok ()
  else
    .error (.error .VERIFICATION_ERROR)

/-- deserialize_module_bundle (aptos_vm.rs lines 356 to 371): deserialize
    every module; any failure becomes a code deserialization error. -/
def deserialize_module_bundle (o : UserOracle) (modules : ModuleBundle) :
    Except VMStatus (List CompiledModule) :=
  match modules with
  | [] => .ok []
  | blob :: rest =>
    match o.deserializeModule blob with
    | .ok m =>
      match deserialize_module_bundle o rest with
      | .ok ms => .ok (m :: ms)
      | .error e => .error e
    | .error _ => .error (.error .CODE_DESERIALIZATION_ERROR)

/-- verify_module_bundle (aptos_vm.rs lines 294 to 319): each module must
    deserialize (propagating the deserializer code on failure) and must not
    already exist at its self id. -/
def verify_module_bundle (o : UserOracle) (module_bundle : ModuleBundle) :
    Except VMStatus Unit :=
  match module_bundle with
  | [] => .ok ()
  | blob :: rest =>
    match o.deserializeModule blob with
    | .ok m =>
      if o.moduleExists m.address m.name then
        .error (.error .DUPLICATE_MODULE_NAME)
      else
        verify_module_bundle o rest
    | .error c => .error (.error c)

/-- execute_module_initialization (aptos_vm.rs lines 321 to 354): for each
    module that has an init_module function, the function must pass the module
    init verifier (otherwise a verification error) and is then executed with
    the given senders. -/
def execute_module_initialization (o : UserOracle) (session : Session)
    (gas_meter : AptosGasMeter) (modules : List CompiledModule)
    (senders : List AccountAddress) : AptosGasMeter × Except VMStatus Session :=
  match modules with
  | [] => (gas_meter, .ok session)
  | m :: rest =>
    if m.hasInitFunction then
      if m.initFunctionWellFormed then
        match o.execInit session m senders gas_meter with
        | (g2, .error e) => (g2, .error e)
        | (g2, .ok s2) => execute_module_initialization o s2 g2 rest senders
      else
        (gas_meter, .error (.error .VERIFICATION_ERROR))
    else
      execute_module_initialization o session gas_meter rest senders

/-- resolve_pending_code_publish (aptos_vm.rs lines 410 to 448): if the
    session holds a publish request, extract it, deserialize the bundle,
    validate the claimed name set, publish with full compatibility checking
    when check_compat is set and relaxed checking otherwise, then run the
    initializers with the destination as the sole signer. -/
def resolve_pending_code_publish (o : UserOracle) (session : Session)
    (gas_meter : AptosGasMeter) : AptosGasMeter × Except VMStatus Session :=
  match session.publishRequest with
  | none => (gas_meter, .ok session)
  | some pr =>
    let session1 : Session := { session with publishRequest := none }
    match deserialize_module_bundle o pr.bundle with
    | .error e => (gas_meter, .error e)
    | .ok modules =>
      match validate_publish_request modules pr.expectedModules with
      | .error e => (gas_meter, .error e)
      | .ok () =>
        match (if pr.check_compat then
                 o.publishBundle session1 pr.bundle pr.destination gas_meter
               else
                 o.publishBundleRelax session1 pr.bundle pr.destination gas_meter) with
        | (g2, .error e) => (g2, .error e)
        | (g2, .ok s2) =>
          execute_module_initialization o s2 g2 modules [pr.destination]

/-- execute_script_or_script_function (aptos_vm.rs lines 219 to 292): charge
    the intrinsic cost, dispatch on the payload (the ModuleBundle and WriteSet
    arms are unreachable and report the UNREACHABLE code), resolve any pending
    publish request, then run the success cleanup. -/
def execute_script_or_script_function (o : UserOracle) (session : Session)
    (gas_meter : AptosGasMeter) (txn_data : TransactionMetadata)
    (payload : TransactionPayload) :
    AptosGasMeter × Except VMStatus (VMStatus × TransactionOutput) :=
  match gas_meter.charge (o.intrinsicGasCost txn_data.transactionSize) with
  | .error (g, c) => (g, .error (.error c))
  | .ok g =>
    match payload with
    | .moduleBundle _ => (g, .error (.error .UNREACHABLE))
    | .writeSet _ => (g, .error (.error .UNREACHABLE))
    | p =>
      match o.execPayload session p g with
      | (g2, .error e) => (g2, .error e)
      | (g2, .ok s2) =>
        match resolve_pending_code_publish o s2 g2 with
        | (g3, .error e) => (g3, .error e)
        | (g3, .ok s3) => (g3, success_transaction_cleanup o s3 g3 txn_data)

/-- execute_modules (aptos_vm.rs lines 373 to 408): charge the intrinsic
    cost, verify the bundle, publish it under the sender, deserialize it and
    run every initializer with the sender as sole signer, then run the success
    cleanup. -/
def execute_modules (o : UserOracle) (session : Session)
    (gas_meter : AptosGasMeter) (txn_data : TransactionMetadata)
    (modules : ModuleBundle) :
    AptosGasMeter × Except VMStatus (VMStatus × TransactionOutput) :=
  match gas_meter.charge (o.intrinsicGasCost txn_data.transactionSize) with
  | .error (g, c) => (g, .error (.error c))
  | .ok g =>
    match verify_module_bundle o modules with
    | .error e => (g, .error e)
    | .ok () =>
      match o.publishBundle session modules txn_data.sender g with
      | (g2, .error e) => (g2, .error e)
      | (g2, .ok s2) =>
        match deserialize_module_bundle o modules with
        | .error e => (g2, .error e)
        | .ok mods =>
          match execute_module_initialization o s2 g2 mods [txn_data.sender] with
          | (g3, .error e) => (g3, .error e)
          | (g3, .ok s3) => (g3, success_transaction_cleanup o s3 g3 txn_data)

/-- The result match of execute_user_transaction (aptos_vm.rs lines 521 to
    537): a successful payload result is returned as is; a Discard classified
    error is discarded; a Keep classified error goes through the failure
    cleanup with the current meter. -/
def user_result_cleanup (o : UserOracle) (txn_data : TransactionMetadata) :
    AptosGasMeter × Except VMStatus (VMStatus × TransactionOutput) →
      VMStatus × TransactionOutput
  | (_, .ok output) => output
  | (gas_meter, .error err) =>
    if (TransactionStatus.fromVMStatus err).isDiscarded then
      discard_error_vm_status err
    else
      failed_transaction_cleanup_and_keep_vm_status o err gas_meter txn_data

/-- execute_user_transaction (aptos_vm.rs lines 469 to 538): revalidate,
    fetch gas parameters, build the metadata and a fresh meter, dispatch on
    the payload kind (a WriteSet payload is unreachable here and is discarded
    with the UNREACHABLE code), and classify the result. -/
def execute_user_transaction (o : UserOracle)
    (txn : SignatureCheckedTransaction) : VMStatus × TransactionOutput :=
  match o.validate with
  | .error err => discard_error_vm_status err
  | .ok () =>
    match o.getGasParams with
    | .error e => discard_error_vm_status e
    | .ok () =>
      let txn_data := TransactionMetadata.new txn
      let gas_meter := AptosGasMeter.new txn_data.maxGasAmount
      match txn.payload with
      | .writeSet _ => discard_error_vm_status (.error .UNREACHABLE)
      | .moduleBundle m =>
        user_result_cleanup o txn_data
          (execute_modules o Session.empty gas_meter txn_data m)
      | p =>
        user_result_cleanup o txn_data
          (execute_script_or_script_function o Session.empty gas_meter txn_data p)

/-- should_restart_execution (aptos_vm.rs lines 981 to 987): true when some
    event of the output carries the new epoch event key. -/
def should_restart_execution (vm_output : TransactionOutput) : Bool :=
  vm_output.events.any fun event => decide (event.key = new_epoch_event_key)

/-- Modelled from the spec: contains_duplicate_signers (aptos types, not under
    src/) checks for duplicate addresses among the primary and secondary
    signers. -/
def contains_duplicate_signers (txn : SignedTransaction) : Bool :=
  decide (¬ (txn.sender :: txn.secondarySigners).Nodup)

/-- check_transaction_format (aptos_vm.rs lines 962 to 968). -/
def check_transaction_format (txn : SignedTransaction) : Except VMStatus Unit :=
  if contains_duplicate_signers txn then
    .error (.error .SIGNERS_CONTAIN_DUPLICATES)
  else
    .ok ()

/-- run_prologue_with_payload (aptos_vm.rs lines 863 to 888): gas check plus
    the payload specific prologue; the writeset prologue path performs no gas
    check. -/
def run_prologue_with_payload (o : UserOracle)
    (payload : TransactionPayload) : Except VMStatus Unit :=
  match payload with
  | .script _ =>
    match o.checkGas with
    | .error e => .error e
    | .ok () => o.scriptPrologue
  | .scriptFunction _ =>
    match o.checkGas with
    | .error e => .error e
    | .ok () => o.scriptPrologue
  | .moduleBundle _ =>
    match o.checkGas with
    | .error e => .error e
    | .ok () => o.modulePrologue
  | .writeSet _ => o.writesetPrologue

/-- validate_simulated_transaction (aptos_vm.rs lines 1066 to 1076). -/
def validate_simulated_transaction (o : UserOracle) (txn : SignedTransaction) :
    Except VMStatus Unit :=
  match check_transaction_format txn with
  | .error e => .error e
  | .ok () => run_prologue_with_payload o txn.payload

/-- The pipeline of simulate_signed_transaction after the signature check
    (aptos_vm.rs lines 1093 to 1145): identical prologue, payload dispatch and
    cleanup structure as execute_user_transaction. -/
def simulate_pipeline (o : UserOracle) (txn : SignedTransaction) :
    VMStatus × TransactionOutput :=
  match validate_simulated_transaction o txn with
  | .error err => discard_error_vm_status err
  | .ok () =>
    match o.getGasParams with
    | .error err => discard_error_vm_status err
    | .ok () =>
      let txn_data := TransactionMetadata.ofSigned txn
      let gas_meter := AptosGasMeter.new txn_data.maxGasAmount
      match txn.payload with
      | .writeSet _ => discard_error_vm_status (.error .UNREACHABLE)
      | .moduleBundle m =>
        user_result_cleanup o txn_data
          (execute_modules o Session.empty gas_meter txn_data m)
      | p =>
        user_result_cleanup o txn_data
          (execute_script_or_script_function o Session.empty gas_meter txn_data p)

/-- simulate_signed_transaction (aptos_vm.rs lines 1081 to 1146): a
    transaction that carries a cryptographically valid signature is rejected
    up front with an invalid signature Discard, before any prologue, payload
    or epilogue step; otherwise the normal pipeline runs. -/
def simulate_signed_transaction (o : UserOracle) (txn : SignedTransaction) :
    VMStatus × TransactionOutput :=
  if txn.signatureValid then
    discard_error_vm_status (.error .INVALID_SIGNATURE)
  else
    simulate_pipeline o txn

/-- The state keys written by the failure epilogue session, when it
    succeeds. -/
def failureEpilogueWriteKeys (o : UserOracle) (balance : Nat)
    (txn_data : TransactionMetadata) : List StateKey :=
  match o.failureEpilogue balance txn_data with
  | .ok s => writeSetKeys s.writes
  | .error _ => []

/-- Writeset oracle whose epilogue session writes key 1, used to exercise the
    overlap check against a payload that also writes key 1. -/
def wsOverlapOracle : WritesetOracle :=
  ⟨.ok (), .ok (), .ok ⟨[], []⟩, .ok (), .ok ⟨[(1, 22)], []⟩, fun _ => some none⟩

/-- Writeset oracle whose epilogue session writes key 2, disjoint from a
    payload writing key 1. -/
def wsMergeOracle : WritesetOracle :=
  ⟨.ok (), .ok (), .ok ⟨[], []⟩, .ok (), .ok ⟨[(2, 22)], []⟩, fun _ => some none⟩

/-- Writeset oracle with an empty epilogue change set. -/
def wsWaypointOracle : WritesetOracle :=
  ⟨.ok (), .ok (), .ok ⟨[], []⟩, .ok (), .ok ⟨[], []⟩, fun _ => some none⟩

/-- A concrete user oracle: intrinsic cost 3, payload execution aborts with
    code 7, module deserialization fails with an opaque code, and the failure
    epilogue writes the gas debit under key 5. -/
def baseUserOracle : UserOracle where
  validate := .ok ()
  getGasParams := .ok ()
  intrinsicGasCost := fun _ => 3
  execPayload := fun _ _ g => (g, .error (.moveAbort 7))
  deserializeModule := fun _ => .error (.other 9)
  moduleExists := fun _ _ => false
  publishBundle := fun s _ _ g => (g, .ok s)
  publishBundleRelax := fun s _ _ g => (g, .ok s)
  execInit := fun s _ _ g => (g, .ok s)
  successEpilogue := fun s _ _ => .ok s
  failureEpilogue := fun bal _ => .ok ⟨[(5, bal)], [], none⟩
  checkGas := .ok ()
  scriptPrologue := .ok ()
  modulePrologue := .ok ()
  writesetPrologue := .ok ()

/-- A user oracle whose deserializer succeeds, publishing modules named after
    their blob. -/
def publishUserOracle : UserOracle :=
  { baseUserOracle with deserializeModule := fun b => .ok ⟨1, b, false, false⟩ }

/-- A publish request claiming the name 9 for a bundle whose module is
    named 4. -/
def samplePublishRequest : PublishRequest := ⟨1, [4], [9], true⟩

/-- A session carrying the sample publish request. -/
def samplePublishSession : Session := ⟨[], [], some samplePublishRequest⟩

/-- A script transaction with budget 10. -/
def scriptTxn : SignatureCheckedTransaction := ⟨0, [], 10, 1, .script 0⟩

/-- A module bundle transaction with one blob. -/
def bundleTxn : SignatureCheckedTransaction := ⟨0, [], 10, 1, .moduleBundle [0]⟩

/-- A user transaction carrying a system write set payload. -/
def writesetTxn : SignatureCheckedTransaction :=
  ⟨0, [], 10, 1, .writeSet (.direct ⟨[], []⟩)⟩

/-- A signed transaction carrying a cryptographically valid signature. -/
def signedTxnValidSig : SignedTransaction := ⟨0, [], 10, 1, .script 0, true⟩

/-- An output whose only event is a new block event. -/
def newBlockOnlyOutput : TransactionOutput :=
  ⟨[], [⟨new_block_event_key, 0, 0⟩], 0, .keep .success⟩

/-- A charge never raises the balance and never alters the budget field. -/
theorem AptosGasMeter.charge_le (m : AptosGasMeter) (a : Nat) :
    (match m.charge a with
     | .ok m2 => m2.balance ≤ m.balance ∧ m2.maxGasAmount = m.maxGasAmount
     | .error (m2, _) => m2.balance ≤ m.balance ∧ m2.maxGasAmount = m.maxGasAmount) := by
  unfold AptosGasMeter.charge
  by_cases h : a ≤ m.balance <;> simp [h]

/-- After any list of charges the balance stays at most the starting balance
    and the budget field is unchanged. -/
theorem AptosGasMeter.chargeAll_le (cs : List Nat) (m : AptosGasMeter) :
    (m.chargeAll cs).balance ≤ m.balance ∧
      (m.chargeAll cs).maxGasAmount = m.maxGasAmount := by
  induction cs generalizing m with
  | nil => exact ⟨le_refl _, rfl⟩
  | cons a rest ih =>
    have hc := AptosGasMeter.charge_le m a
    unfold AptosGasMeter.chargeAll
    cases hm : m.charge a with
    | ok m2 =>
      rw [hm] at hc
      have := ih m2
      exact ⟨le_trans this.1 hc.1, this.2.trans hc.2⟩
    | error e =>
      obtain ⟨m2, c⟩ := e
      rw [hm] at hc
      exact ⟨hc.1, hc.2⟩

/-- C4: for every user transaction, the gas usage computed at line 518 of
    aptos_vm.rs as max_gas_amount minus the meter balance is between 0 and
    max_gas_amount, and the subtraction never underflows: after any sequence
    of charges issued to a fresh meter, the balance never exceeds the original
    budget. -/
theorem gas_usage_bounded (txn_data : TransactionMetadata)
    (charges : List Nat) :
    ((AptosGasMeter.new txn_data.maxGasAmount).chargeAll charges).balance
        ≤ txn_data.maxGasAmount
    ∧ gas_usage txn_data
        ((AptosGasMeter.new txn_data.maxGasAmount).chargeAll charges)
        ≤ txn_data.maxGasAmount := by
  have h := AptosGasMeter.chargeAll_le charges
    (AptosGasMeter.new txn_data.maxGasAmount)
  exact ⟨h.1, Nat.sub_le _ _⟩

/-- C9: should_restart_execution returns true exactly when some event of the
    output carries the new epoch (reconfiguration) event key; an output whose
    events all carry the new block key alone does not trigger the restart
    signal. -/
theorem restart_iff_new_epoch_event (vm_output : TransactionOutput) :
    (should_restart_execution vm_output = true ↔
      ∃ e ∈ vm_output.events, e.key = new_epoch_event_key)
    ∧ ((∀ e ∈ vm_output.events, e.key = new_block_event_key) →
        should_restart_execution vm_output = false) := by
  constructor
  · simp [should_restart_execution, List.any_eq_true]
  · intro h
    rw [should_restart_execution]
    rw [List.any_eq_false]
    intro e he
    rw [h e he]
    decide

/-- Hypothesis witness for restart_iff_new_epoch_event: an output with only a
    new block event does not signal a restart. -/
theorem restart_iff_new_epoch_event_witness :
    should_restart_execution newBlockOnlyOutput = false :=
  (restart_iff_new_epoch_event newBlockOnlyOutput).2 (by decide)

/-- C5: for a waypoint write set transaction whose payload derives a change
    set, missing either the new epoch or the new block marker makes
    process_waypoint_change_set fail with the invalid write set status, which
    classifies as Discard, with no merged output produced; when both markers
    are present, validation of the change set succeeds. -/
theorem waypoint_requires_epoch_and_block (o : WritesetOracle)
    (writeset_payload : WriteSetPayload) (cs : ChangeSet)
    (hws : execute_writeset o writeset_payload none = .ok cs) :
    ((hasNewBlockEvent cs.events = false ∨ hasNewEpochEvent cs.events = false) →
      process_waypoint_change_set o writeset_payload
          = .error (.error .INVALID_WRITE_SET)
      ∧ TransactionStatus.fromVMStatus (.error .INVALID_WRITE_SET)
          = .discard .INVALID_WRITE_SET)
    ∧ (hasNewBlockEvent cs.events = true → hasNewEpochEvent cs.events = true →
        validate_waypoint_change_set cs = .ok ()) := by
  constructor
  · intro h
    refine ⟨?_, rfl⟩
    unfold process_waypoint_change_set
    rw [hws]
    unfold validate_waypoint_change_set
    rcases h with h | h <;> simp [h]
  · intro h1 h2
    unfold validate_waypoint_change_set
    simp [h1, h2]

/-- Hypothesis witness for waypoint_requires_epoch_and_block: a direct
    payload with no events is rejected with the invalid write set status. -/
theorem waypoint_requires_epoch_and_block_witness :
    process_waypoint_change_set wsWaypointOracle
        (WriteSetPayload.direct ⟨[], []⟩)
      = .error (.error .INVALID_WRITE_SET) :=
  ((waypoint_requires_epoch_and_block wsWaypointOracle
      (WriteSetPayload.direct ⟨[], []⟩) ⟨[], []⟩ rfl).1 (Or.inl rfl)).1

/-- C1: in execute_writeset_transaction, whenever the epilogue session change
    set shares a state key with the payload write set or an event key with the
    payload events, the result is the Discard output with the invalid write
    set status: empty write set, no events, never a merged or partially merged
    output. -/
theorem writeset_overlap_discarded (o : WritesetOracle)
    (writeset_payload : WriteSetPayload) (txn_data : TransactionMetadata)
    (cs epiCs : ChangeSet)
    (hws : execute_writeset o writeset_payload (some txn_data.sender) = .ok cs)
    (hrun : o.epilogueRun = .ok ())
    (hread : read_writeset o.getStateValue cs.writeSet = .ok ())
    (hout : o.epilogueOut = .ok epiCs)
    (hoverlap :
      keysDisjoint (writeSetKeys epiCs.writeSet) (writeSetKeys cs.writeSet) = false
      ∨ keysDisjoint (eventKeysOf epiCs.events) (eventKeysOf cs.events) = false) :
    execute_writeset_transaction o writeset_payload txn_data
        = .ok (VMStatus.error .INVALID_WRITE_SET,
            discard_error_output .INVALID_WRITE_SET)
    ∧ (discard_error_output .INVALID_WRITE_SET).writeSet = []
    ∧ (discard_error_output .INVALID_WRITE_SET).events = []
    ∧ (discard_error_output .INVALID_WRITE_SET).status
        = .discard .INVALID_WRITE_SET := by
  refine ⟨?_, rfl, rfl, rfl⟩
  unfold execute_writeset_transaction
  simp only [hws, hrun, hread, hout]
  rcases hoverlap with h | h
  · simp [h, discard_error_vm_status, VMStatus.statusCode]
  · cases hd : keysDisjoint (writeSetKeys epiCs.writeSet) (writeSetKeys cs.writeSet)
    · simp [hd, discard_error_vm_status, VMStatus.statusCode]
    · simp [hd, h, discard_error_vm_status, VMStatus.statusCode]

/-- Hypothesis witness for writeset_overlap_discarded: a payload writing key 1
    while the epilogue session also writes key 1 is discarded. -/
theorem writeset_overlap_discarded_witness :
    execute_writeset_transaction wsOverlapOracle
        (WriteSetPayload.direct ⟨[(1, 11)], []⟩) ⟨0, [], 0, 0⟩
      = .ok (VMStatus.error .INVALID_WRITE_SET,
          discard_error_output .INVALID_WRITE_SET) :=
  (writeset_overlap_discarded wsOverlapOracle
    (WriteSetPayload.direct ⟨[(1, 11)], []⟩) ⟨0, [], 0, 0⟩
    ⟨[(1, 11)], []⟩ ⟨[(1, 22)], []⟩ rfl rfl rfl rfl (Or.inl (by decide))).1

/-- C2 counterexample: the merged write set of execute_writeset_transaction
    places the epilogue write before the payload write, not after it.  With a
    payload that writes key 1 and an epilogue session that writes key 2, the
    output write set is the epilogue entry followed by the payload entry,
    which differs from the payload first ordering the claim states. -/
theorem writeset_merge_order_counterexample :
    execute_writeset_transaction wsMergeOracle
        (WriteSetPayload.direct ⟨[(1, 11)], []⟩) ⟨0, [], 0, 0⟩
      = .ok (.executed, ⟨[(2, 22), (1, 11)], [], 0, .keep .success⟩)
    ∧ [((2 : StateKey), (22 : WriteOp)), (1, 11)] ≠ [(1, 11), (2, 22)] := by
  refine ⟨rfl, by decide⟩

/-- C2 amended: for every system write set transaction that passes the
    disjointness checks, the merged output chains the epilogue writes BEFORE
    the payload writes in the final write set ordering, and chains the payload
    events before the epilogue events in the final event list. -/
theorem writeset_merge_order_amended (o : WritesetOracle)
    (writeset_payload : WriteSetPayload) (txn_data : TransactionMetadata)
    (cs epiCs : ChangeSet)
    (hws : execute_writeset o writeset_payload (some txn_data.sender) = .ok cs)
    (hrun : o.epilogueRun = .ok ())
    (hread : read_writeset o.getStateValue cs.writeSet = .ok ())
    (hout : o.epilogueOut = .ok epiCs)
    (hdisj1 :
      keysDisjoint (writeSetKeys epiCs.writeSet) (writeSetKeys cs.writeSet) = true)
    (hdisj2 :
      keysDisjoint (eventKeysOf epiCs.events) (eventKeysOf cs.events) = true)
    (hfreeze : WriteSetMut.freeze (epiCs.writeSet ++ cs.writeSet)
        = some (epiCs.writeSet ++ cs.writeSet)) :
    execute_writeset_transaction o writeset_payload txn_data
      = .ok (.executed,
          ⟨epiCs.writeSet ++ cs.writeSet, cs.events ++ epiCs.events, 0,
            .keep .success⟩) := by
  unfold execute_writeset_transaction
  simp only [hws, hrun, hread, hout]
  simp [hdisj1, hdisj2, hfreeze]

/-- Hypothesis witness for writeset_merge_order_amended: with payload write
    key 1 and epilogue write key 2 the merged output lists key 2 first. -/
theorem writeset_merge_order_amended_witness :
    execute_writeset_transaction wsMergeOracle
        (WriteSetPayload.direct ⟨[(1, 11)], []⟩) ⟨0, [], 0, 0⟩
      = .ok (.executed, ⟨[(2, 22), (1, 11)], [], 0, .keep .success⟩) :=
  writeset_merge_order_amended wsMergeOracle
    (WriteSetPayload.direct ⟨[(1, 11)], []⟩) ⟨0, [], 0, 0⟩
    ⟨[(1, 11)], []⟩ ⟨[(2, 22)], []⟩ rfl rfl rfl rfl (by decide) (by decide)
    (by decide)

/-- C3: when the payload execution of a user script transaction fails with a
    Keep classified status, the cleanup runs only the failure epilogue in a
    brand new session rooted at the pre transaction resolver, debiting gas
    from the current meter balance, so the output carries exactly the fresh
    session writes and events and none of the failed attempt; if the failure
    epilogue itself fails, the transaction degrades to Discard. -/
theorem failed_cleanup_fresh_session (o : UserOracle)
    (txn : SignatureCheckedTransaction) (sc : Nat)
    (g : AptosGasMeter) (err : VMStatus) (st : ExecutionStatus)
    (hv : o.validate = .ok ()) (hg : o.getGasParams = .ok ())
    (hp : txn.payload = .script sc)
    (hexec : execute_script_or_script_function o Session.empty
        (AptosGasMeter.new (TransactionMetadata.new txn).maxGasAmount)
        (TransactionMetadata.new txn) (.script sc) = (g, .error err))
    (hkeep : TransactionStatus.fromVMStatus err = .keep st) :
    execute_user_transaction o txn
      = (match o.failureEpilogue g.balance (TransactionMetadata.new txn) with
         | .error e => discard_error_vm_status e
         | .ok s =>
           (err, ⟨s.writes, s.events,
             (TransactionMetadata.new txn).maxGasAmount - g.balance,
             .keep st⟩))
    ∧ (∀ e, o.failureEpilogue g.balance (TransactionMetadata.new txn) = .error e →
        (execute_user_transaction o txn).2.status = .discard e.statusCode)
    ∧ (∀ s, o.failureEpilogue g.balance (TransactionMetadata.new txn) = .ok s →
        (execute_user_transaction o txn).2.writeSet = s.writes
        ∧ (execute_user_transaction o txn).2.events = s.events) := by
  have hmain : execute_user_transaction o txn
      = failed_transaction_cleanup_and_keep_vm_status o err g
          (TransactionMetadata.new txn) := by
    unfold execute_user_transaction
    simp only [hv, hg, hp, hexec]
    unfold user_result_cleanup
    simp [hkeep, TransactionStatus.isDiscarded]
  refine ⟨?_, ?_, ?_⟩
  · rw [hmain]
    unfold failed_transaction_cleanup_and_keep_vm_status
    rw [hkeep]
    cases hfe : o.failureEpilogue g.balance (TransactionMetadata.new txn) with
    | error e => rfl
    | ok s => rfl
  · intro e hfe
    rw [hmain]
    unfold failed_transaction_cleanup_and_keep_vm_status
    rw [hkeep, hfe]
    rfl
  · intro s hfe
    rw [hmain]
    unfold failed_transaction_cleanup_and_keep_vm_status
    rw [hkeep, hfe]
    exact ⟨rfl, rfl⟩

/-- Hypothesis witness for failed_cleanup_fresh_session: an aborting script
    under the concrete oracle yields exactly the failure epilogue write of the
    gas debit key and nothing else. -/
theorem failed_cleanup_fresh_session_witness :
    (execute_user_transaction baseUserOracle scriptTxn).2.writeSet = [(5, 7)]
    ∧ (execute_user_transaction baseUserOracle scriptTxn).2.events = [] :=
  (failed_cleanup_fresh_session baseUserOracle scriptTxn 0 ⟨10, 7⟩
    (.moveAbort 7) (.moveAbort 7) rfl rfl rfl rfl rfl).2.2
    ⟨[(5, 7)], [], none⟩ rfl

/-- C6: if any step of a module bundle transaction fails (deserialization,
    duplicate module, the init_module verifier, or init_module execution), no
    write staged by the attempt appears in the final output: every state key
    of the final write set is a key written by the failure epilogue running
    against the pre transaction state, so any key the epilogue does not touch,
    in particular the publish writes of the N modules, is absent. -/
theorem module_publish_atomicity (o : UserOracle)
    (txn : SignatureCheckedTransaction) (m : ModuleBundle)
    (g : AptosGasMeter) (err : VMStatus)
    (hv : o.validate = .ok ()) (hg : o.getGasParams = .ok ())
    (hp : txn.payload = .moduleBundle m)
    (hfail : execute_modules o Session.empty
        (AptosGasMeter.new (TransactionMetadata.new txn).maxGasAmount)
        (TransactionMetadata.new txn) m = (g, .error err)) :
    ∀ k : StateKey,
      k ∉ failureEpilogueWriteKeys o g.balance (TransactionMetadata.new txn) →
      k ∉ writeSetKeys (execute_user_transaction o txn).2.writeSet := by
  intro k hk
  have hmain : execute_user_transaction o txn
      = user_result_cleanup o (TransactionMetadata.new txn) (g, .error err) := by
    unfold execute_user_transaction
    simp only [hv, hg, hp, hfail]
  rw [hmain]
  unfold user_result_cleanup
  cases hcl : TransactionStatus.fromVMStatus err with
  | discard c =>
    simp [hcl, TransactionStatus.isDiscarded, discard_error_vm_status,
      discard_error_output, writeSetKeys]
  | keep st =>
    simp only [hcl, TransactionStatus.isDiscarded, Bool.false_eq_true, if_false]
    unfold failed_transaction_cleanup_and_keep_vm_status
    rw [hcl]
    unfold failureEpilogueWriteKeys at hk
    cases hfe : o.failureEpilogue g.balance (TransactionMetadata.new txn) with
    | error e =>
      simp [discard_error_vm_status, discard_error_output, writeSetKeys]
    | ok s =>
      rw [hfe] at hk
      simpa [get_transaction_output] using hk
  | retry =>
    simp only [hcl, TransactionStatus.isDiscarded, Bool.false_eq_true, if_false]
    unfold failed_transaction_cleanup_and_keep_vm_status
    rw [hcl]
    simp [discard_error_output, writeSetKeys]

/-- Hypothesis witness for module_publish_atomicity: under the concrete
    oracle the bundle fails to deserialize and a key the failure epilogue does
    not write is absent from the final write set. -/
theorem module_publish_atomicity_witness :
    (99 : StateKey)
      ∉ writeSetKeys (execute_user_transaction baseUserOracle bundleTxn).2.writeSet :=
  module_publish_atomicity baseUserOracle bundleTxn [0] ⟨10, 7⟩
    (.error (.other 9)) rfl rfl rfl rfl 99 (by decide)

/-- C7: validate_publish_request succeeds exactly when the claimed name set
    equals the set of names in the deserialized bundle; on mismatch
    resolve_pending_code_publish fails the transaction with a verification
    error before any publish, and on match it publishes with full
    compatibility checking exactly when check_compat is set (relaxed checking
    otherwise) and then runs the initializers with the destination address as
    the sole signer. -/
theorem resolve_publish_name_set (o : UserOracle) (session : Session)
    (g : AptosGasMeter) (pr : PublishRequest) (mods : List CompiledModule)
    (hreq : session.publishRequest = some pr)
    (hdes : deserialize_module_bundle o pr.bundle = .ok mods) :
    (validate_publish_request mods pr.expectedModules = .ok () ↔
      ∀ x : Identifier,
        x ∈ mods.map CompiledModule.name ↔ x ∈ pr.expectedModules)
    ∧ ((¬ ∀ x : Identifier,
          x ∈ mods.map CompiledModule.name ↔ x ∈ pr.expectedModules) →
        resolve_pending_code_publish o session g
          = (g, .error (.error .VERIFICATION_ERROR)))
    ∧ ((∀ x : Identifier,
          x ∈ mods.map CompiledModule.name ↔ x ∈ pr.expectedModules) →
        pr.check_compat = true →
        resolve_pending_code_publish o session g
          = (match o.publishBundle { session with publishRequest := none }
                pr.bundle pr.destination g with
             | (g2, .error e) => (g2, .error e)
             | (g2, .ok s2) =>
               execute_module_initialization o s2 g2 mods [pr.destination]))
    ∧ ((∀ x : Identifier,
          x ∈ mods.map CompiledModule.name ↔ x ∈ pr.expectedModules) →
        pr.check_compat = false →
        resolve_pending_code_publish o session g
          = (match o.publishBundleRelax { session with publishRequest := none }
                pr.bundle pr.destination g with
             | (g2, .error e) => (g2, .error e)
             | (g2, .ok s2) =>
               execute_module_initialization o s2 g2 mods [pr.destination])) := by
  have hiff : validate_publish_request mods pr.expectedModules = .ok () ↔
      ∀ x : Identifier,
        x ∈ mods.map CompiledModule.name ↔ x ∈ pr.expectedModules := by
    unfold validate_publish_request
    constructor
    · intro h
      by_cases hc : (((mods.map CompiledModule.name).all fun x =>
            decide (x ∈ pr.expectedModules)) &&
          (pr.expectedModules.all fun y =>
            decide (y ∈ mods.map CompiledModule.name))) = true
      · rw [Bool.and_eq_true] at hc
        simp only [List.all_eq_true, decide_eq_true_eq] at hc
        intro x
        exact ⟨fun hx => hc.1 x hx, fun hx => hc.2 x hx⟩
      · rw [if_neg hc] at h
        exact absurd h (by simp)
    · intro h
      have hc : (((mods.map CompiledModule.name).all fun x =>
            decide (x ∈ pr.expectedModules)) &&
          (pr.expectedModules.all fun y =>
            decide (y ∈ mods.map CompiledModule.name))) = true := by
        rw [Bool.and_eq_true]
        simp only [List.all_eq_true, decide_eq_true_eq]
        exact ⟨fun x hx => (h x).mp hx, fun y hy => (h y).mpr hy⟩
      rw [if_pos hc]
  have hvalerr : (¬ ∀ x : Identifier,
        x ∈ mods.map CompiledModule.name ↔ x ∈ pr.expectedModules) →
      validate_publish_request mods pr.expectedModules
        = .error (.error .VERIFICATION_ERROR) := by
    intro h
    cases hval : validate_publish_request mods pr.expectedModules with
    | ok u => exact absurd (hiff.mp (by cases u; exact hval)) h
    | error e =>
      unfold validate_publish_request at hval
      by_cases hc : (((mods.map CompiledModule.name).all fun x =>
            decide (x ∈ pr.expectedModules)) &&
          (pr.expectedModules.all fun y =>
            decide (y ∈ mods.map CompiledModule.name))) = true
      · rw [if_pos hc] at hval
        exact absurd hval (by simp)
      · rw [if_neg hc] at hval
        rw [← hval]
  refine ⟨hiff, ?_, ?_, ?_⟩
  · intro h
    unfold resolve_pending_code_publish
    rw [hreq]
    simp only [hdes, hvalerr h]
  · intro h hcompat
    unfold resolve_pending_code_publish
    rw [hreq]
    simp only [hdes, hiff.mpr h, hcompat, if_true]
  · intro h hcompat
    unfold resolve_pending_code_publish
    rw [hreq]
    simp only [hdes, hiff.mpr h, hcompat, Bool.false_eq_true, if_false]

/-- Hypothesis witness for resolve_publish_name_set: a bundle whose module is
    named 4 while the request claims name 9 fails with a verification
    error. -/
theorem resolve_publish_name_set_witness :
    resolve_pending_code_publish publishUserOracle samplePublishSession
        (AptosGasMeter.new 10)
      = (AptosGasMeter.new 10, .error (.error .VERIFICATION_ERROR)) :=
  (resolve_publish_name_set publishUserOracle samplePublishSession
    (AptosGasMeter.new 10) samplePublishRequest [⟨1, 4, false, false⟩]
    rfl rfl).2.1
    (fun h => absurd ((h 4).mp (by decide)) (by decide))

/-- C8: simulate_signed_transaction rejects a transaction carrying a
    cryptographically valid signature immediately with the invalid signature
    Discard output, before any prologue, payload or epilogue step runs (the
    result is the same for every oracle); a transaction with an invalid
    signature proceeds through the normal prologue, payload and epilogue
    pipeline, whose prologue verdict in particular governs the result. -/
theorem simulate_rejects_valid_signature (o : UserOracle)
    (txn : SignedTransaction) :
    (txn.signatureValid = true →
      simulate_signed_transaction o txn
        = (VMStatus.error .INVALID_SIGNATURE,
            discard_error_output .INVALID_SIGNATURE))
    ∧ (txn.signatureValid = false →
      simulate_signed_transaction o txn = simulate_pipeline o txn)
    ∧ (∀ e, txn.signatureValid = false →
        validate_simulated_transaction o txn = .error e →
        simulate_signed_transaction o txn = discard_error_vm_status e) := by
  refine ⟨?_, ?_, ?_⟩
  · intro h
    unfold simulate_signed_transaction
    rw [h]
    rfl
  · intro h
    unfold simulate_signed_transaction
    rw [h]
    rfl
  · intro e h hval
    unfold simulate_signed_transaction
    rw [h]
    unfold simulate_pipeline
    rw [hval]
    rfl

/-- Hypothesis witness for simulate_rejects_valid_signature: a validly signed
    transaction is rejected with the invalid signature Discard. -/
theorem simulate_rejects_valid_signature_witness :
    simulate_signed_transaction baseUserOracle signedTxnValidSig
      = (VMStatus.error .INVALID_SIGNATURE,
          discard_error_output .INVALID_SIGNATURE) :=
  (simulate_rejects_valid_signature baseUserOracle signedTxnValidSig).1 rfl

/-- C10: a signature checked transaction carrying a WriteSet payload makes
    execute_user_transaction return the Discard output with the UNREACHABLE
    status for every oracle, so no gas is charged and no payload or epilogue
    step runs; the ModuleBundle and WriteSet arms inside
    execute_script_or_script_function likewise report the UNREACHABLE status,
    which classifies as Discard, rather than panicking. -/
theorem writeset_payload_unreachable (o : UserOracle)
    (txn : SignatureCheckedTransaction) (w w2 : WriteSetPayload)
    (m : ModuleBundle) (s : Session) (g g2 : AptosGasMeter)
    (td : TransactionMetadata)
    (hv : o.validate = .ok ()) (hg : o.getGasParams = .ok ())
    (hp : txn.payload = .writeSet w)
    (hcharge : g.charge (o.intrinsicGasCost td.transactionSize) = .ok g2) :
    execute_user_transaction o txn
      = (VMStatus.error .UNREACHABLE, discard_error_output .UNREACHABLE)
    ∧ (execute_user_transaction o txn).2.gasUsed = 0
    ∧ (execute_user_transaction o txn).2.writeSet = []
    ∧ execute_script_or_script_function o s g td (.moduleBundle m)
        = (g2, .error (.error .UNREACHABLE))
    ∧ execute_script_or_script_function o s g td (.writeSet w2)
        = (g2, .error (.error .UNREACHABLE))
    ∧ TransactionStatus.fromVMStatus (.error .UNREACHABLE)
        = .discard .UNREACHABLE := by
  have hmain : execute_user_transaction o txn
      = (VMStatus.error .UNREACHABLE, discard_error_output .UNREACHABLE) := by
    unfold execute_user_transaction
    simp only [hv, hg, hp]
    rfl
  refine ⟨hmain, by rw [hmain]; rfl, by rw [hmain]; rfl, ?_, ?_, rfl⟩
  · unfold execute_script_or_script_function
    rw [hcharge]
  · unfold execute_script_or_script_function
    rw [hcharge]

/-- Hypothesis witness for writeset_payload_unreachable: the concrete user
    transaction with a direct write set payload is discarded with the
    UNREACHABLE status. -/
theorem writeset_payload_unreachable_witness :
    execute_user_transaction baseUserOracle writesetTxn
      = (VMStatus.error .UNREACHABLE, discard_error_output .UNREACHABLE) :=
  (writeset_payload_unreachable baseUserOracle writesetTxn
    (.direct ⟨[], []⟩) (.direct ⟨[], []⟩) [0] Session.empty
    ⟨10, 10⟩ ⟨10, 7⟩ ⟨0, [], 10, 1⟩ rfl rfl rfl rfl).1

end AptosVM
